import Mathlib

/-!
Verification of the incident-analysis core of the `opssage` repository:
the response extractor, schema validation of the stage-output models,
the incident context store, the notification dispatcher, and the
three-stage orchestration pipeline.

Python string operations (`str.strip`, `str.find`, `str.rfind`, slicing
with negative indices) are embedded over `List Char`, and `json.loads`
is embedded as a fuel-bounded strict recursive-descent parser.
-/

/-! ## Python string primitives -/

/-- The characters stripped by Python `str.strip()` (ASCII whitespace). -/
def pyWhitespace (c : Char) : Bool :=
  c == ' ' || c == '\t' || c == '\n' || c == '\r' || c == '\x0b' || c == '\x0c'

/-- Python `str.strip()`: remove leading and trailing whitespace. -/
def pyStrip (s : String) : String :=
  String.mk (((s.data.dropWhile pyWhitespace).reverse.dropWhile pyWhitespace).reverse)

/-- Python `str.startswith(pat)`. -/
def pyStartsWith (s pat : String) : Bool :=
  pat.data.isPrefixOf s.data

/-- Python `str.endswith(pat)`. -/
def pyEndsWith (s pat : String) : Bool :=
  pat.data.isSuffixOf s.data

/-- Index of the first occurrence of `pat` in `l`, if any. -/
def findSub (l pat : List Char) : Option Nat :=
  if pat.isPrefixOf l then some 0
  else
    match l with
    | [] => none
    | _ :: rest => (findSub rest pat).map (· + 1)

/-- Index of the last occurrence of `pat` in `l`, if any. -/
def rfindSub (l pat : List Char) : Option Nat :=
  match l with
  | [] => if pat.isEmpty then some 0 else none
  | _ :: rest =>
    match rfindSub rest pat with
    | some k => some (k + 1)
    | none => if pat.isPrefixOf l then some 0 else none

/-- Python `s.find(pat, start)`: first index at or after `start`, `-1` if absent. -/
def pyFind (s pat : String) (start : Nat) : Int :=
  match findSub (s.data.drop start) pat.data with
  | none => -1
  | some k => Int.ofNat (start + k)

/-- Python `s.rfind(pat)`: last index of `pat` in `s`, `-1` if absent. -/
def pyRfind (s pat : String) : Int :=
  match rfindSub s.data pat.data with
  | none => -1
  | some k => Int.ofNat k

/-- Python `pat in s`. -/
def pyContains (s pat : String) : Bool :=
  (findSub s.data pat.data).isSome

/-- Normalize a Python slice index against a sequence of length `n`. -/
def pyIdx (n : Nat) (i : Int) : Nat :=
  if i < 0 then (max (Int.ofNat n + i) 0).toNat else min i.toNat n

/-- Python `s[a:b]` with full negative-index semantics. -/
def pySlice (s : String) (a b : Int) : String :=
  String.mk (((s.data.take (pyIdx s.data.length b)).drop (pyIdx s.data.length a)))

/-- Python `s[a:]`. -/
def pySliceFrom (s : String) (a : Int) : String :=
  pySlice s a (Int.ofNat s.data.length)

/-! ## A strict JSON parser modelling `json.loads`

The subset used by the agents' responses: objects, arrays, strings with
the single-character escapes, integers, `true`/`false`/`null`.  Inputs
outside the subset are rejected, as a strict parser rejects malformed
input; all claims evaluate the parser only on inputs inside the subset.
-/

inductive JsonVal where
  | null
  | bool (b : Bool)
  | num (n : Int)
  | str (s : String)
  | arr (elems : List JsonVal)
  | obj (members : List (String × JsonVal))

def lbrace : Char := Char.ofNat 123

def rbrace : Char := Char.ofNat 125

def jsonWs (c : Char) : Bool :=
  c == ' ' || c == '\t' || c == '\n' || c == '\r'

def skipWs (l : List Char) : List Char :=
  l.dropWhile jsonWs

/-- Parse the body of a JSON string literal (after the opening quote). -/
def parseStrBody : List Char → Option (List Char × List Char)
  | [] => none
  | c :: rest =>
    if c == '"' then some ([], rest)
    else if c == '\\' then
      match rest with
      | [] => none
      | e :: rest2 =>
        let esc : Option Char :=
          if e == '"' then some '"'
          else if e == '\\' then some '\\'
          else if e == '/' then some '/'
          else if e == 'n' then some '\n'
          else if e == 't' then some '\t'
          else if e == 'r' then some '\r'
          else none
        match esc with
        | none => none
        | some d =>
          match parseStrBody rest2 with
          | none => none
          | some (cs, rem) => some (d :: cs, rem)
    else
      match parseStrBody rest with
      | none => none
      | some (cs, rem) => some (c :: cs, rem)

def isDigit (c : Char) : Bool :=
  '0' ≤ c && c ≤ '9'

def digitsToNat (ds : List Char) : Nat :=
  ds.foldl (fun acc c => acc * 10 + (c.toNat - 48)) 0

/-- Parse a JSON integer (no fraction/exponent; leading zeros rejected). -/
def parseIntLit (l : List Char) : Option (Int × List Char) :=
  let (neg, l1) :=
    match l with
    | '-' :: rest => (true, rest)
    | _ => (false, l)
  let ds := l1.takeWhile isDigit
  let rest := l1.dropWhile isDigit
  if ds.isEmpty then none
  else if ds.length > 1 && ds.headD '0' == '0' then none
  else
    let n : Int := Int.ofNat (digitsToNat ds)
    some (if neg then -n else n, rest)

mutual

def parseVal : Nat → List Char → Option (JsonVal × List Char)
  | 0, _ => none
  | fuel + 1, l =>
    match skipWs l with
    | [] => none
    | c :: rest =>
      if c == '"' then
        match parseStrBody rest with
        | none => none
        | some (cs, rem) => some (JsonVal.str (String.mk cs), rem)
      else if c == lbrace then
        parseObjMembers fuel (skipWs rest) true
      else if c == '[' then
        parseArrItems fuel (skipWs rest) true
      else if c == 't' then
        if ['r', 'u', 'e'].isPrefixOf rest then some (JsonVal.bool true, rest.drop 3)
        else none
      else if c == 'f' then
        if ['a', 'l', 's', 'e'].isPrefixOf rest then some (JsonVal.bool false, rest.drop 4)
        else none
      else if c == 'n' then
        if ['u', 'l', 'l'].isPrefixOf rest then some (JsonVal.null, rest.drop 3)
        else none
      else
        match parseIntLit (c :: rest) with
        | none => none
        | some (n, rem) => some (JsonVal.num n, rem)

/-- Parse object members; `first` is true right after the opening brace. -/
def parseObjMembers : Nat → List Char → Bool → Option (JsonVal × List Char)
  | 0, _, _ => none
  | fuel + 1, l, first =>
    match l with
    | [] => none
    | c :: rest =>
      if first && c == rbrace then some (JsonVal.obj [], rest)
      else
        if c == '"' then
          match parseStrBody rest with
          | none => none
          | some (key, rem) =>
            match skipWs rem with
            | ':' :: rem2 =>
              match parseVal fuel rem2 with
              | none => none
              | some (v, rem3) =>
                match skipWs rem3 with
                | ',' :: rem4 =>
                  match parseObjMembers fuel (skipWs rem4) false with
                  | some (JsonVal.obj ms, rem5) =>
                    some (JsonVal.obj ((String.mk key, v) :: ms), rem5)
                  | _ => none
                | d :: rem4 =>
                  if d == rbrace then some (JsonVal.obj [(String.mk key, v)], rem4)
                  else none
                | [] => none
            | _ => none
        else none

/-- Parse array items; `first` is true right after the opening bracket. -/
def parseArrItems : Nat → List Char → Bool → Option (JsonVal × List Char)
  | 0, _, _ => none
  | fuel + 1, l, first =>
    match l with
    | [] => none
    | c :: _ =>
      if first && c == ']' then some (JsonVal.arr [], l.drop 1)
      else
        match parseVal fuel l with
        | none => none
        | some (v, rem) =>
          match skipWs rem with
          | ',' :: rem2 =>
            match parseArrItems fuel (skipWs rem2) false with
            | some (JsonVal.arr vs, rem3) => some (JsonVal.arr (v :: vs), rem3)
            | _ => none
          | ']' :: rem2 => some (JsonVal.arr [v], rem2)
          | _ => none

end

/-- Embedding of strict `json.loads`. -/
def json_loads (s : String) : Except String JsonVal :=
  match parseVal (2 * s.data.length + 4) s.data with
  | none => Except.error "Invalid JSON"
  | some (v, rest) =>
    if (skipWs rest).isEmpty then Except.ok v
    else Except.error "Extra data"

/-! ## The response extractor
(`IncidentOrchestrator._extract_json_from_response`, orchestrator.py) -/

inductive ExtractErr where
  | noJsonObject
  | noCompleteJson
  | invalidJson
deriving DecidableEq

/-- The markdown-fence-removal step of the extractor: if a three-backtick
json fence tag occurs, take the text between the end of the tag and the
next fence marker (the failed lookup returning `-1` is used as the slice
end unchanged, as in the source); else the same with a plain fence tag;
else the content unchanged. -/
def stripFences (content : String) : String :=
  if pyContains content "```json" then
    let start := pyFind content "```json" 0 + 7
    let stop := pyFind content "```" start.toNat
    pyStrip (pySlice content start stop)
  else if pyContains content "```" then
    let start := pyFind content "```" 0 + 3
    let stop := pyFind content "```" start.toNat
    pyStrip (pySlice content start stop)
  else content

/-- Discard text before the first opening brace; error if there is none. -/
def dropToFirstBrace (content : String) : Except ExtractErr String :=
  if pyStartsWith content "\x7b" then Except.ok content
  else
    let start := pyFind content "\x7b" 0
    if start == -1 then Except.error ExtractErr.noJsonObject
    else Except.ok (pySliceFrom content start)

/-- Discard text after the last closing brace; error if there is none. -/
def clampToLastBrace (content : String) : Except ExtractErr String :=
  if pyEndsWith content "\x7d" then Except.ok content
  else
    let stop := pyRfind content "\x7d"
    if stop == -1 then Except.error ExtractErr.noCompleteJson
    else Except.ok (pySlice content 0 (stop + 1))

/-- `IncidentOrchestrator._extract_json_from_response`: strip, remove
fences, trim to the brace-delimited span, then strict-parse. -/
def _extract_json_from_response (response : String) : Except ExtractErr JsonVal :=
  let content := stripFences (pyStrip response)
  match dropToFirstBrace content with
  | Except.error e => Except.error e
  | Except.ok c1 =>
    match clampToLastBrace c1 with
    | Except.error e => Except.error e
    | Except.ok c2 =>
      match json_loads c2 with
      | Except.ok v => Except.ok v
      | Except.error _ => Except.error ExtractErr.invalidJson

/-! ## Data models (models.py)

Pydantic models are embedded as structures; `float` scores as `Rat`;
`dict[str, Any]` values as `JsonVal`; `datetime` as a `Nat` tick. -/

structure AlertMetadata where
  alert_name : String
  severity : String
  firing_condition : String
  trigger_time : String
deriving DecidableEq

structure AffectedComponents where
  service : Option String
  namespace_ : Option String
  pod : Option String
  node : Option String
deriving DecidableEq

structure EvidenceCollected where
  metrics : List (List (String × JsonVal))
  logs : List (List (String × JsonVal))
  events : List (List (String × JsonVal))

structure PreliminaryAnalysis where
  observations : List String
  hypotheses : List String
  missing_information : List String
deriving DecidableEq

structure PrimaryContextPackage where
  alert_metadata : AlertMetadata
  affected_components : AffectedComponents
  evidence_collected : EvidenceCollected
  preliminary_analysis : PreliminaryAnalysis

structure RetrievedKnowledge where
  source_id : String
  excerpt : String
  relevance : Rat
deriving DecidableEq

structure ContextualEnrichment where
  failure_patterns : List String
  possible_causes : List String
  related_incidents : List String
  known_remediation_actions : List String
deriving DecidableEq

structure EnhancedContextPackage where
  primary_context_reference : PrimaryContextPackage
  retrieved_knowledge : List RetrievedKnowledge
  knowledge_summary : String
  contextual_enrichment : ContextualEnrichment

structure RecommendedRemediation where
  short_term_actions : List String
  long_term_actions : List String
deriving DecidableEq

structure IncidentDiagnosticReport where
  root_cause : String
  reasoning_steps : List String
  supporting_evidence : List String
  confidence_score : Rat
  recommended_remediation : RecommendedRemediation
deriving DecidableEq

structure AlertInput where
  alert_name : String
  severity : String
  message : String
  labels : List (String × String)
  annotations : List (String × String)
  firing_condition : String
  timestamp : Nat
deriving DecidableEq

/-! ## Schema validation

Embedding of the validators pydantic generates from the declarations in
models.py: a raw document supplies each declared field optionally
(`none` = field absent from the JSON document); validation fails when a
required field is missing or a constrained number is out of range.  The
declarations constrain `RetrievedKnowledge.relevance` and
`IncidentDiagnosticReport.confidence_score` with `ge=0.0, le=1.0` and
declare no length constraint on any list field. -/

inductive ValidationErr where
  | missing (field : String)
  | out_of_range (field : String)
deriving DecidableEq

structure RawKnowledgeDoc where
  source_id : Option String
  excerpt : Option String
  relevance : Option Rat

def knowledgeDocErrs (doc : RawKnowledgeDoc) : List ValidationErr :=
  (match doc.source_id with
   | none => [ValidationErr.missing "source_id"]
   | some _ => []) ++
  (match doc.excerpt with
   | none => [ValidationErr.missing "excerpt"]
   | some _ => []) ++
  (match doc.relevance with
   | none => [ValidationErr.missing "relevance"]
   | some r => if r < 0 ∨ 1 < r then [ValidationErr.out_of_range "relevance"] else [])

def validateKnowledge (doc : RawKnowledgeDoc) :
    Except (List ValidationErr) RetrievedKnowledge :=
  match doc.source_id, doc.excerpt, doc.relevance with
  | some sid, some ex, some r =>
    if r < 0 ∨ 1 < r then Except.error [ValidationErr.out_of_range "relevance"]
    else Except.ok ⟨sid, ex, r⟩
  | _, _, _ => Except.error (knowledgeDocErrs doc)

structure RawReportDoc where
  root_cause : Option String
  reasoning_steps : Option (List String)
  supporting_evidence : Option (List String)
  confidence_score : Option Rat
  recommended_remediation : Option RecommendedRemediation

def reportDocErrs (doc : RawReportDoc) : List ValidationErr :=
  (match doc.root_cause with
   | none => [ValidationErr.missing "root_cause"]
   | some _ => []) ++
  (match doc.reasoning_steps with
   | none => [ValidationErr.missing "reasoning_steps"]
   | some _ => []) ++
  (match doc.supporting_evidence with
   | none => [ValidationErr.missing "supporting_evidence"]
   | some _ => []) ++
  (match doc.confidence_score with
   | none => [ValidationErr.missing "confidence_score"]
   | some c => if c < 0 ∨ 1 < c then [ValidationErr.out_of_range "confidence_score"] else []) ++
  (match doc.recommended_remediation with
   | none => [ValidationErr.missing "recommended_remediation"]
   | some _ => [])

def validateReport (doc : RawReportDoc) :
    Except (List ValidationErr) IncidentDiagnosticReport :=
  match doc.root_cause, doc.reasoning_steps, doc.supporting_evidence,
        doc.confidence_score, doc.recommended_remediation with
  | some rc, some rs, some se, some cs, some rem =>
    if cs < 0 ∨ 1 < cs then Except.error [ValidationErr.out_of_range "confidence_score"]
    else Except.ok ⟨rc, rs, se, cs, rem⟩
  | _, _, _, _, _ => Except.error (reportDocErrs doc)

def exceptIsOk : Except ε α → Bool
  | Except.ok _ => true
  | Except.error _ => false

deriving instance DecidableEq for Except

/-! ## Context store (context_store.py)

The database table is a list of records in insertion order;
`query(...).filter(incident_id == id).first()` is first-match lookup;
committing a mutation of the found ORM object replaces it in the table.
Subscriber callbacks are keyed by incident id; a callback is modelled by
an identifier plus whether invoking it raises.  Each mutating operation
returns the post-operation store, the identifiers of the callbacks that
were invoked, the snapshot passed to them, and its outcome
(`KeyError` for a missing incident, or an exception escaping from a
callback, which the source's notification loop does not catch). -/

structure IncidentContext where
  incident_id : String
  alert_input : AlertInput
  primary_context : Option PrimaryContextPackage
  enhanced_context : Option EnhancedContextPackage
  diagnostic_report : Option IncidentDiagnosticReport
  created_at : Nat
  updated_at : Nat
  status : String

structure IncidentRecord where
  incident_id : String
  status : String
  created_at : Nat
  updated_at : Nat
  alert_input : AlertInput
  primary_context : Option PrimaryContextPackage
  enhanced_context : Option EnhancedContextPackage
  diagnostic_report : Option IncidentDiagnosticReport
  alert_name : String
  severity : String
  namespace_ : Option String
  service : Option String
  root_cause : Option String
  confidence_score : Option Rat

structure Callback where
  cbId : Nat
  throws : Bool
deriving DecidableEq

structure StoreState where
  incidents : List IncidentRecord
  subscribers : List (String × List Callback)

inductive StoreErr where
  | notFound (incident_id : String)
  | callbackExc (cbId : Nat)
deriving DecidableEq

structure OpResult where
  state : StoreState
  invoked : List Nat
  notified : Option IncidentContext
  result : Except StoreErr Unit

/-- Python `dict.get(key)`. -/
def pyDictGet : List (String × String) → String → Option String
  | [], _ => none
  | (a, b) :: rest, k => if a = k then some b else pyDictGet rest k

/-- `ContextStore._model_to_context`: rebuild the snapshot handed to
subscribers and readers from the persisted record. -/
def _model_to_context (r : IncidentRecord) : IncidentContext :=
  ⟨r.incident_id, r.alert_input, r.primary_context, r.enhanced_context,
   r.diagnostic_report, r.created_at, r.updated_at, r.status⟩

/-- The record `create_incident` persists (`_context_to_model_data`
applied to a fresh pending context). -/
def newIncidentRecord (alert : AlertInput) (newId : String) (now : Nat) :
    IncidentRecord :=
  ⟨newId, "pending", now, now, alert, none, none, none,
   alert.alert_name, alert.severity,
   pyDictGet alert.labels "namespace", pyDictGet alert.labels "service",
   none, none⟩

/-- `query.filter(incident_id == id).first()`. -/
def findIncident : List IncidentRecord → String → Option IncidentRecord
  | [], _ => none
  | r :: rest, id => if r.incident_id = id then some r else findIncident rest id

/-- Committing a mutation `f` of the looked-up ORM object. -/
def updateRecord (l : List IncidentRecord) (id : String)
    (f : IncidentRecord → IncidentRecord) : List IncidentRecord :=
  l.map fun r => if r.incident_id = id then f r else r

/-- Registered callbacks for an id (`self._subscribers.get(id, [])`). -/
def subsFor : List (String × List Callback) → String → List Callback
  | [], _ => []
  | (k, cbs) :: rest, id => if k = id then cbs else subsFor rest id

/-- `ContextStore._notify_subscribers`: invoke the callbacks in
registration order; the loop has no exception handling, so the first
raising callback aborts the loop and its exception escapes.  Returns the
invoked callback identifiers and the identifier of the raiser, if any. -/
def _notify_subscribers : List Callback → List Nat × Option Nat
  | [] => ([], none)
  | c :: rest =>
    if c.throws then ([c.cbId], some c.cbId)
    else
      let (ids, thrown) := _notify_subscribers rest
      (c.cbId :: ids, thrown)

/-- Common shape of the four mutating operations: look up the incident
(`KeyError` if absent), commit the field mutation, then notify the
subscribers with the post-update snapshot. -/
def updateIncident (s : StoreState) (id : String)
    (f : IncidentRecord → IncidentRecord) : OpResult :=
  match findIncident s.incidents id with
  | none => ⟨s, [], none, Except.error (StoreErr.notFound id)⟩
  | some r =>
    let s2 : StoreState := ⟨updateRecord s.incidents id f, s.subscribers⟩
    let (inv, thrown) := _notify_subscribers (subsFor s.subscribers id)
    ⟨s2, inv, some (_model_to_context (f r)),
     match thrown with
     | none => Except.ok ()
     | some i => Except.error (StoreErr.callbackExc i)⟩

/-- `ContextStore.update_primary_context`. -/
def update_primary_context (s : StoreState) (id : String)
    (pc : PrimaryContextPackage) (now : Nat) : OpResult :=
  updateIncident s id fun r =>
    { r with primary_context := some pc, updated_at := now,
             status := "context_collected" }

/-- `ContextStore.update_enhanced_context`. -/
def update_enhanced_context (s : StoreState) (id : String)
    (ec : EnhancedContextPackage) (now : Nat) : OpResult :=
  updateIncident s id fun r =>
    { r with enhanced_context := some ec, updated_at := now,
             status := "context_enriched" }

/-- `ContextStore.update_diagnostic_report` (also refreshes the
denormalized `root_cause` and `confidence_score` columns). -/
def update_diagnostic_report (s : StoreState) (id : String)
    (dr : IncidentDiagnosticReport) (now : Nat) : OpResult :=
  updateIncident s id fun r =>
    { r with diagnostic_report := some dr, updated_at := now,
             status := "completed", root_cause := some dr.root_cause,
             confidence_score := some dr.confidence_score }

/-- `ContextStore.update_status`. -/
def update_status (s : StoreState) (id : String) (status : String)
    (now : Nat) : OpResult :=
  updateIncident s id fun r =>
    { r with status := status, updated_at := now }

/-- `ContextStore.create_incident`: insert a fresh pending record and
notify any callbacks already registered under the new id. -/
def create_incident (s : StoreState) (alert : AlertInput) (newId : String)
    (now : Nat) : OpResult :=
  let r := newIncidentRecord alert newId now
  let s2 : StoreState := ⟨s.incidents ++ [r], s.subscribers⟩
  let (inv, thrown) := _notify_subscribers (subsFor s.subscribers newId)
  ⟨s2, inv, some (_model_to_context r),
   match thrown with
   | none => Except.ok ()
   | some i => Except.error (StoreErr.callbackExc i)⟩

/-- `ContextStore.get_incident`. -/
def get_incident (s : StoreState) (id : String) : Option IncidentContext :=
  (findIncident s.incidents id).map _model_to_context

/-- The `_subscribers` dictionary after `subscribe`: append to the
key's list, inserting an empty list first if the key is new. -/
def subscribeList (subs : List (String × List Callback)) (id : String)
    (cb : Callback) : List (String × List Callback) :=
  match subs with
  | [] => [(id, [cb])]
  | (k, cbs) :: rest =>
    if k = id then (k, cbs ++ [cb]) :: rest
    else (k, cbs) :: subscribeList rest id cb

/-- `ContextStore.subscribe`: no existence check, never fails. -/
def subscribe (s : StoreState) (id : String) (cb : Callback) : StoreState :=
  ⟨s.incidents, subscribeList s.subscribers id cb⟩

/-! ## Notification dispatcher (notifications.py)

`TelegramNotifier.send_message` returns `False` when disabled; the HTTP
post is wrapped in `try/except Exception`, returning `True` on success
and `False` on any transport failure.  The transport outcome is an
input; message formatting (f-strings, truncation, `.upper()`, label
lookups) is total, so the wrappers return whatever `send_message`
returns.  HTML/emoji decoration of the messages is elided. -/

structure TelegramNotifier where
  bot_token : Option String
  chat_id : Option String
  dashboard_url : String
  enabled : Bool

/-- The `enabled` flag computed in `TelegramNotifier.__init__`:
configuration switch AND both credentials present and non-empty
(an empty credential string is modelled as `none`). -/
def mkNotifier (cfg_enabled : Bool) (bot_token chat_id : Option String)
    (dashboard_url : String) : TelegramNotifier :=
  ⟨bot_token, chat_id, dashboard_url,
   cfg_enabled && bot_token.isSome && chat_id.isSome⟩

/-- Outcome of the `httpx` post inside `send_message`: success, or any
raised exception (connection error, timeout, `raise_for_status`). -/
inductive Transport where
  | success
  | failure (reason : String)
deriving DecidableEq

/-- `TelegramNotifier.send_message`. -/
def send_message (n : TelegramNotifier) (transport : Transport)
    (_message : String) : Bool :=
  if !n.enabled then false
  else
    match transport with
    | Transport.success => true
    | Transport.failure _ => false

/-- Python truncation idiom `s[:keep] + "..." if len(s) > limit`. -/
def pyTruncate (s : String) (limit keep : Nat) : String :=
  if s.data.length > limit then String.mk (s.data.take keep) ++ "..." else s

/-- `labels.get(key, "N/A")`. -/
def labelOr (labels : List (String × String)) (key : String) : String :=
  (pyDictGet labels key).getD "N/A"

/-- `TelegramNotifier.send_incident_start`. -/
def send_incident_start (n : TelegramNotifier) (transport : Transport)
    (incident_id : String) (alert : AlertInput) : Bool :=
  let incident_url := n.dashboard_url ++ "/incidents/" ++ incident_id
  let msg := pyTruncate alert.message 150 147
  let message :=
    "Incident Analysis Started\n" ++ alert.alert_name ++ "\n" ++
    alert.severity.toUpper ++ "\n" ++ labelOr alert.labels "namespace" ++
    "\n" ++ labelOr alert.labels "service" ++ "\n" ++ msg ++ "\n" ++
    incident_url
  send_message n transport (pyStrip message)

/-- `TelegramNotifier.send_incident_complete`. -/
def send_incident_complete (n : TelegramNotifier) (transport : Transport)
    (incident_id : String) (alert : AlertInput)
    (diagnostic_report : IncidentDiagnosticReport)
    (duration_seconds : Nat) : Bool :=
  let incident_url := n.dashboard_url ++ "/incidents/" ++ incident_id
  let root_cause := pyTruncate diagnostic_report.root_cause 150 147
  let actions :=
    diagnostic_report.recommended_remediation.short_term_actions.take 2
  let message :=
    "Incident Analysis Complete\n" ++ alert.alert_name ++ "\n" ++
    toString duration_seconds ++ "\n" ++ root_cause ++ "\n" ++
    String.intercalate "\n" actions ++ "\n" ++ incident_url
  send_message n transport (pyStrip message)

/-- `TelegramNotifier.send_incident_error`. -/
def send_incident_error (n : TelegramNotifier) (transport : Transport)
    (incident_id : String) (alert : AlertInput) (error : String)
    (duration_seconds : Nat) : Bool :=
  let incident_url := n.dashboard_url ++ "/incidents/" ++ incident_id
  let error_msg := pyTruncate error 200 197
  let message :=
    "Incident Analysis Failed\n" ++ alert.alert_name ++ "\n" ++
    toString duration_seconds ++ "\n" ++ error_msg ++ "\n" ++ incident_url
  send_message n transport (pyStrip message)

/-! ## Orchestrator pipeline (orchestrator.py)

`analyze_incident` with the agent stages abstracted: each stage's run
either yields its validated output or raises (adapter failure,
extraction failure or validation failure), given as `StageResults`.
The wall clock is an operation counter starting at `t`; the fresh uuid
is the input `newId`.  The outcome records the final store, the
notifications sent, a trace tag for each store mutation attempted, and
the value returned or exception raised to the caller. -/

inductive PyErr where
  | stageExc (msg : String)
  | storeExc (e : StoreErr)
deriving DecidableEq

def pyErrStr : PyErr → String
  | PyErr.stageExc m => m
  | PyErr.storeExc (StoreErr.notFound id) => "Incident " ++ id ++ " not found"
  | PyErr.storeExc (StoreErr.callbackExc _) => "exception in subscriber callback"

inductive OpTag where
  | createOp
  | statusOp (status : String)
  | primaryOp
  | enhancedOp
  | diagOp
deriving DecidableEq

inductive PipeNote where
  | started (incident_id : String)
  | completed (incident_id : String) (duration : Nat)
  | failed (incident_id : String) (error : String) (duration : Nat)
deriving DecidableEq

structure StageResults where
  aica : Except String PrimaryContextPackage
  krea : Except String EnhancedContextPackage
  rcara : Except String IncidentDiagnosticReport

structure PipelineOutcome where
  store : StoreState
  notes : List PipeNote
  ops : List OpTag
  result : Except PyErr (String × IncidentDiagnosticReport)

/-- The `try` block of `analyze_incident`: stages 1-3, each preceded by
its `running_*` status update and followed by its stage-output update.
On failure it returns the store as left by the ops already performed,
the trace of ops attempted, and the exception. -/
def runTry (s : StoreState) (incident_id : String) (stages : StageResults)
    (t : Nat) :
    Except (StoreState × List OpTag × PyErr)
      (StoreState × List OpTag × IncidentDiagnosticReport) :=
  let o1 := update_status s incident_id "running_aica" t
  match o1.result with
  | Except.error e =>
    Except.error (o1.state, [OpTag.statusOp "running_aica"], PyErr.storeExc e)
  | Except.ok _ =>
    match stages.aica with
    | Except.error m =>
      Except.error (o1.state, [OpTag.statusOp "running_aica"], PyErr.stageExc m)
    | Except.ok pc =>
      let o2 := update_primary_context o1.state incident_id pc (t + 1)
      match o2.result with
      | Except.error e =>
        Except.error (o2.state,
          [OpTag.statusOp "running_aica", OpTag.primaryOp], PyErr.storeExc e)
      | Except.ok _ =>
        let o3 := update_status o2.state incident_id "running_krea" (t + 2)
        match o3.result with
        | Except.error e =>
          Except.error (o3.state,
            [OpTag.statusOp "running_aica", OpTag.primaryOp,
             OpTag.statusOp "running_krea"], PyErr.storeExc e)
        | Except.ok _ =>
          match stages.krea with
          | Except.error m =>
            Except.error (o3.state,
              [OpTag.statusOp "running_aica", OpTag.primaryOp,
               OpTag.statusOp "running_krea"], PyErr.stageExc m)
          | Except.ok ec =>
            let o4 := update_enhanced_context o3.state incident_id ec (t + 3)
            match o4.result with
            | Except.error e =>
              Except.error (o4.state,
                [OpTag.statusOp "running_aica", OpTag.primaryOp,
                 OpTag.statusOp "running_krea", OpTag.enhancedOp],
                PyErr.storeExc e)
            | Except.ok _ =>
              let o5 := update_status o4.state incident_id "running_rcara" (t + 4)
              match o5.result with
              | Except.error e =>
                Except.error (o5.state,
                  [OpTag.statusOp "running_aica", OpTag.primaryOp,
                   OpTag.statusOp "running_krea", OpTag.enhancedOp,
                   OpTag.statusOp "running_rcara"], PyErr.storeExc e)
              | Except.ok _ =>
                match stages.rcara with
                | Except.error m =>
                  Except.error (o5.state,
                    [OpTag.statusOp "running_aica", OpTag.primaryOp,
                     OpTag.statusOp "running_krea", OpTag.enhancedOp,
                     OpTag.statusOp "running_rcara"], PyErr.stageExc m)
                | Except.ok dr =>
                  let o6 := update_diagnostic_report o5.state incident_id dr (t + 5)
                  match o6.result with
                  | Except.error e =>
                    Except.error (o6.state,
                      [OpTag.statusOp "running_aica", OpTag.primaryOp,
                       OpTag.statusOp "running_krea", OpTag.enhancedOp,
                       OpTag.statusOp "running_rcara", OpTag.diagOp],
                      PyErr.storeExc e)
                  | Except.ok _ =>
                    Except.ok (o6.state,
                      [OpTag.statusOp "running_aica", OpTag.primaryOp,
                       OpTag.statusOp "running_krea", OpTag.enhancedOp,
                       OpTag.statusOp "running_rcara", OpTag.diagOp], dr)

/-- `IncidentOrchestrator.analyze_incident`: create the incident, send
the start notification, run the stages; on success send the completion
notification and return the report; on any exception from the stage
steps set status `failed`, send the failure notification (best-effort)
and re-raise the original exception. -/
def analyze_incident (s : StoreState) (alert : AlertInput) (newId : String)
    (stages : StageResults) (t : Nat) : PipelineOutcome :=
  let c := create_incident s alert newId t
  match c.result with
  | Except.error e => ⟨c.state, [], [OpTag.createOp], Except.error (PyErr.storeExc e)⟩
  | Except.ok _ =>
    match runTry c.state newId stages (t + 1) with
    | Except.ok (s2, tr, dr) =>
      ⟨s2, [PipeNote.started newId, PipeNote.completed newId 6],
       OpTag.createOp :: tr, Except.ok (newId, dr)⟩
    | Except.error (s2, tr, e) =>
      let o := update_status s2 newId "failed" (t + 7)
      match o.result with
      | Except.error e2 =>
        ⟨o.state, [PipeNote.started newId],
         OpTag.createOp :: tr ++ [OpTag.statusOp "failed"],
         Except.error (PyErr.storeExc e2)⟩
      | Except.ok _ =>
        ⟨o.state,
         [PipeNote.started newId, PipeNote.failed newId (pyErrStr e) 7],
         OpTag.createOp :: tr ++ [OpTag.statusOp "failed"],
         Except.error e⟩

/-! ## Concrete fixtures used to evaluate the theorems -/

def alertA : AlertInput :=
  ⟨"HighCPUUsage", "critical", "cpu high",
   [("namespace", "production"), ("service", "api-server")], [],
   "cpu > 90", 0⟩

def amA : AlertMetadata := ⟨"HighCPUUsage", "critical", "cpu > 90", "t0"⟩

def pcA : PrimaryContextPackage :=
  ⟨amA, ⟨some "api-server", some "production", none, none⟩,
   ⟨[], [], []⟩, ⟨[], [], []⟩⟩

def pcB : PrimaryContextPackage :=
  ⟨amA, ⟨some "api-server", some "production", none, none⟩,
   ⟨[], [], []⟩, ⟨["second run"], [], []⟩⟩

def ecA : EnhancedContextPackage := ⟨pcA, [], "", ⟨[], [], [], []⟩⟩

def drA : IncidentDiagnosticReport :=
  ⟨"memory leak", ["step 1"], ["oom events"], 1 / 2, ⟨["restart"], []⟩⟩

def recA : IncidentRecord := newIncidentRecord alertA "i1" 0

def storeA : StoreState := ⟨[recA], []⟩

def storeB : StoreState := ⟨[recA], [("i1", [⟨0, true⟩, ⟨1, false⟩])]⟩

/-! ## Helper lemmas about the store -/

theorem findIncident_some_id {l : List IncidentRecord} {id : String}
    {r : IncidentRecord} (h : findIncident l id = some r) :
    r.incident_id = id := by
  induction l with
  | nil => simp [findIncident] at h
  | cons hd tl ih =>
    by_cases hh : hd.incident_id = id
    · simp [findIncident, hh] at h
      subst h; exact hh
    · simp [findIncident, hh] at h
      exact ih h

theorem findIncident_append_of_none {l : List IncidentRecord} {id : String}
    {r : IncidentRecord} (h : findIncident l id = none)
    (hr : r.incident_id = id) : findIncident (l ++ [r]) id = some r := by
  induction l with
  | nil => simp [findIncident, hr]
  | cons hd tl ih =>
    by_cases hh : hd.incident_id = id
    · simp [findIncident, hh] at h
    · simp [findIncident, hh] at h ⊢
      exact ih h

theorem findIncident_updateRecord {l : List IncidentRecord} {id : String}
    {f : IncidentRecord → IncidentRecord}
    (hf : ∀ x, (f x).incident_id = x.incident_id) :
    findIncident (updateRecord l id f) id = (findIncident l id).map f := by
  induction l with
  | nil => simp [findIncident, updateRecord]
  | cons hd tl ih =>
    by_cases hh : hd.incident_id = id
    · simp [findIncident, updateRecord, hh, hf]
    · simpa [findIncident, updateRecord, hh] using ih

theorem notify_all_ok {l : List Callback}
    (h : ∀ c ∈ l, c.throws = false) :
    _notify_subscribers l = (l.map Callback.cbId, none) := by
  induction l with
  | nil => rfl
  | cons c rest ih =>
    have hc : c.throws = false := h c (by simp)
    have hrest : ∀ d ∈ rest, d.throws = false := fun d hd => h d (by simp [hd])
    simp [_notify_subscribers, hc, ih hrest]

theorem notify_throws {pre post : List Callback} {bad : Callback}
    (hpre : ∀ c ∈ pre, c.throws = false) (hbad : bad.throws = true) :
    _notify_subscribers (pre ++ bad :: post) =
      (pre.map Callback.cbId ++ [bad.cbId], some bad.cbId) := by
  induction pre with
  | nil => simp [_notify_subscribers, hbad]
  | cons c rest ih =>
    have hc : c.throws = false := hpre c (by simp)
    have hrest : ∀ d ∈ rest, d.throws = false := fun d hd => hpre d (by simp [hd])
    simp [_notify_subscribers, hc, ih hrest]

theorem updateIncident_none {s : StoreState} {id : String}
    {f : IncidentRecord → IncidentRecord}
    (hfind : findIncident s.incidents id = none) :
    updateIncident s id f = ⟨s, [], none, Except.error (StoreErr.notFound id)⟩ := by
  simp [updateIncident, hfind]

theorem updateIncident_some_ok {s : StoreState} {id : String}
    {f : IncidentRecord → IncidentRecord} {r : IncidentRecord}
    (hfind : findIncident s.incidents id = some r)
    (hsubs : ∀ c ∈ subsFor s.subscribers id, c.throws = false) :
    updateIncident s id f =
      ⟨⟨updateRecord s.incidents id f, s.subscribers⟩,
       (subsFor s.subscribers id).map Callback.cbId,
       some (_model_to_context (f r)), Except.ok ()⟩ := by
  simp [updateIncident, hfind, notify_all_ok hsubs]

theorem updateIncident_some_throw {s : StoreState} {id : String}
    {f : IncidentRecord → IncidentRecord} {r : IncidentRecord}
    {pre post : List Callback} {bad : Callback}
    (hfind : findIncident s.incidents id = some r)
    (hsubs : subsFor s.subscribers id = pre ++ bad :: post)
    (hpre : ∀ c ∈ pre, c.throws = false) (hbad : bad.throws = true) :
    updateIncident s id f =
      ⟨⟨updateRecord s.incidents id f, s.subscribers⟩,
       pre.map Callback.cbId ++ [bad.cbId],
       some (_model_to_context (f r)),
       Except.error (StoreErr.callbackExc bad.cbId)⟩ := by
  simp [updateIncident, hfind, hsubs, notify_throws hpre hbad]

theorem subsFor_subscribeList_self (subs : List (String × List Callback))
    (id : String) (cb : Callback) :
    subsFor (subscribeList subs id cb) id = subsFor subs id ++ [cb] := by
  induction subs with
  | nil => simp [subscribeList, subsFor]
  | cons p rest ih =>
    obtain ⟨k, cbs⟩ := p
    by_cases h : k = id
    · subst h; simp [subscribeList, subsFor]
    · simp [subscribeList, subsFor, h, ih]

theorem subsFor_subscribeList_ne (subs : List (String × List Callback))
    (id k : String) (cb : Callback) (h : k ≠ id) :
    subsFor (subscribeList subs id cb) k = subsFor subs k := by
  induction subs with
  | nil => simp [subscribeList, subsFor, Ne.symm h]
  | cons p rest ih =>
    obtain ⟨k2, cbs⟩ := p
    by_cases h2 : k2 = id
    · subst h2
      simp [subscribeList, subsFor, Ne.symm h]
    · by_cases h3 : k2 = k
      · subst h3; simp [subscribeList, subsFor, h2]
      · simp [subscribeList, subsFor, h2, h3, ih]

theorem updateIncident_state {s : StoreState} {id : String}
    {f : IncidentRecord → IncidentRecord} {r : IncidentRecord}
    (hfind : findIncident s.incidents id = some r) :
    (updateIncident s id f).state =
      ⟨updateRecord s.incidents id f, s.subscribers⟩ := by
  simp [updateIncident, hfind]

theorem updateIncident_notified {s : StoreState} {id : String}
    {f : IncidentRecord → IncidentRecord} {r : IncidentRecord}
    (hfind : findIncident s.incidents id = some r) :
    (updateIncident s id f).notified = some (_model_to_context (f r)) := by
  simp [updateIncident, hfind]

theorem updateIncident_found_contract {s : StoreState} {id : String}
    {f : IncidentRecord → IncidentRecord} {r : IncidentRecord}
    (hfind : findIncident s.incidents id = some r)
    (hf : ∀ x, (f x).incident_id = x.incident_id) :
    get_incident (updateIncident s id f).state id =
        some (_model_to_context (f r))
    ∧ (updateIncident s id f).notified = some (_model_to_context (f r))
    ∧ (updateIncident s id f).state.subscribers = s.subscribers
    ∧ ((∀ c ∈ subsFor s.subscribers id, c.throws = false) →
        (updateIncident s id f).result = Except.ok ()
        ∧ (updateIncident s id f).invoked =
            (subsFor s.subscribers id).map Callback.cbId) := by
  refine ⟨?_, updateIncident_notified hfind, ?_, ?_⟩
  · rw [updateIncident_state hfind]
    simp [get_incident, findIncident_updateRecord hf, hfind]
  · rw [updateIncident_state hfind]
  · intro hsubs
    rw [updateIncident_some_ok hfind hsubs]
    exact ⟨rfl, rfl⟩

/-- C2: for each of `update_primary_context`, `update_enhanced_context`
and `update_diagnostic_report`, a call on an existing incident sets the
corresponding stage-output field to the given value, advances the status
to `context_collected` / `context_enriched` / `completed` respectively,
bumps `updated_at`, persists the record, and notifies subscribers with
the post-update snapshot (all registered callbacks are invoked when none
raises); a call on a non-existent id fails with the not-found error and
leaves every incident in the store unchanged. -/
theorem update_ops_contract (s : StoreState) (id : String)
    (pc : PrimaryContextPackage) (ec : EnhancedContextPackage)
    (dr : IncidentDiagnosticReport) (now : Nat) :
    (∀ r, findIncident s.incidents id = some r →
      (get_incident (update_primary_context s id pc now).state id =
          some ⟨id, r.alert_input, some pc, r.enhanced_context,
                r.diagnostic_report, r.created_at, now, "context_collected"⟩
       ∧ (update_primary_context s id pc now).notified =
          some ⟨id, r.alert_input, some pc, r.enhanced_context,
                r.diagnostic_report, r.created_at, now, "context_collected"⟩
       ∧ (update_primary_context s id pc now).state.subscribers = s.subscribers
       ∧ ((∀ c ∈ subsFor s.subscribers id, c.throws = false) →
            (update_primary_context s id pc now).result = Except.ok ()
            ∧ (update_primary_context s id pc now).invoked =
                (subsFor s.subscribers id).map Callback.cbId))
      ∧ (get_incident (update_enhanced_context s id ec now).state id =
          some ⟨id, r.alert_input, r.primary_context, some ec,
                r.diagnostic_report, r.created_at, now, "context_enriched"⟩
       ∧ (update_enhanced_context s id ec now).notified =
          some ⟨id, r.alert_input, r.primary_context, some ec,
                r.diagnostic_report, r.created_at, now, "context_enriched"⟩
       ∧ (update_enhanced_context s id ec now).state.subscribers = s.subscribers
       ∧ ((∀ c ∈ subsFor s.subscribers id, c.throws = false) →
            (update_enhanced_context s id ec now).result = Except.ok ()
            ∧ (update_enhanced_context s id ec now).invoked =
                (subsFor s.subscribers id).map Callback.cbId))
      ∧ (get_incident (update_diagnostic_report s id dr now).state id =
          some ⟨id, r.alert_input, r.primary_context, r.enhanced_context,
                some dr, r.created_at, now, "completed"⟩
       ∧ (update_diagnostic_report s id dr now).notified =
          some ⟨id, r.alert_input, r.primary_context, r.enhanced_context,
                some dr, r.created_at, now, "completed"⟩
       ∧ (update_diagnostic_report s id dr now).state.subscribers = s.subscribers
       ∧ ((∀ c ∈ subsFor s.subscribers id, c.throws = false) →
            (update_diagnostic_report s id dr now).result = Except.ok ()
            ∧ (update_diagnostic_report s id dr now).invoked =
                (subsFor s.subscribers id).map Callback.cbId)))
    ∧ (findIncident s.incidents id = none →
        update_primary_context s id pc now =
          ⟨s, [], none, Except.error (StoreErr.notFound id)⟩
        ∧ update_enhanced_context s id ec now =
          ⟨s, [], none, Except.error (StoreErr.notFound id)⟩
        ∧ update_diagnostic_report s id dr now =
          ⟨s, [], none, Except.error (StoreErr.notFound id)⟩) := by
  constructor
  · intro r hfind
    have hid := findIncident_some_id hfind
    refine ⟨?_, ?_, ?_⟩
    · have h := updateIncident_found_contract
        (f := fun x => { x with primary_context := some pc, updated_at := now,
                                status := "context_collected" })
        hfind (fun x => rfl)
      simpa [update_primary_context, _model_to_context, hid] using h
    · have h := updateIncident_found_contract
        (f := fun x => { x with enhanced_context := some ec, updated_at := now,
                                status := "context_enriched" })
        hfind (fun x => rfl)
      simpa [update_enhanced_context, _model_to_context, hid] using h
    · have h := updateIncident_found_contract
        (f := fun x => { x with diagnostic_report := some dr, updated_at := now,
                                status := "completed",
                                root_cause := some dr.root_cause,
                                confidence_score := some dr.confidence_score })
        hfind (fun x => rfl)
      simpa [update_diagnostic_report, _model_to_context, hid] using h
  · intro hfind
    exact ⟨updateIncident_none hfind, updateIncident_none hfind,
           updateIncident_none hfind⟩

/-- Witness for C2: on a store holding exactly the incident `i1`, the
existing-incident branch at `i1` and the missing-incident branch at
`nope` evaluate as the contract states. -/
theorem update_ops_contract_witness :
    (get_incident (update_primary_context storeA "i1" pcA 3).state "i1" =
        some ⟨"i1", alertA, some pcA, none, none, 0, 3, "context_collected"⟩)
    ∧ update_primary_context storeA "nope" pcA 3 =
        ⟨storeA, [], none, Except.error (StoreErr.notFound "nope")⟩ :=
  ⟨(((update_ops_contract storeA "i1" pcA ecA drA 3).1 recA rfl).1).1,
   ((update_ops_contract storeA "nope" pcA ecA drA 3).2 rfl).1⟩

/-- C4 counterexample: on a store whose incident `i1` has two registered
callbacks, of which the first raises, a mutation raises the callback's
exception to the mutating caller and the second callback is never
invoked — refuting the claim that the exception is not propagated and
that the remaining callbacks still run.  (The committed mutation itself
survives, as the third conjunct shows.) -/
theorem callback_throw_counterexample :
    (update_status storeB "i1" "running_aica" 5).result =
      Except.error (StoreErr.callbackExc 0)
    ∧ (update_status storeB "i1" "running_aica" 5).invoked = [0]
    ∧ get_incident (update_status storeB "i1" "running_aica" 5).state "i1" =
        some ⟨"i1", alertA, none, none, none, 0, 5, "running_aica"⟩ :=
  ⟨rfl, rfl, rfl⟩

/-- C4 (amended): when a subscriber callback raises during a store
mutation, the mutation's database commit has already happened, so the
updated record persists in the store; but the callback's exception
propagates to the mutating caller, and only the callbacks registered
before the raising one (plus the raiser) are invoked — callbacks after
it never run.  This holds for all four mutating operations. -/
theorem mutation_survives_callback_throw (s : StoreState) (id : String)
    (r : IncidentRecord) (pre post : List Callback) (bad : Callback)
    (st : String) (pc : PrimaryContextPackage) (ec : EnhancedContextPackage)
    (dr : IncidentDiagnosticReport) (now : Nat)
    (hfind : findIncident s.incidents id = some r)
    (hsubs : subsFor s.subscribers id = pre ++ bad :: post)
    (hpre : ∀ c ∈ pre, c.throws = false)
    (hbad : bad.throws = true) :
    ((update_status s id st now).state.incidents =
        updateRecord s.incidents id
          (fun x => { x with status := st, updated_at := now })
     ∧ (update_status s id st now).invoked =
        pre.map Callback.cbId ++ [bad.cbId]
     ∧ (update_status s id st now).result =
        Except.error (StoreErr.callbackExc bad.cbId))
    ∧ ((update_primary_context s id pc now).state.incidents =
        updateRecord s.incidents id
          (fun x => { x with primary_context := some pc, updated_at := now,
                             status := "context_collected" })
     ∧ (update_primary_context s id pc now).result =
        Except.error (StoreErr.callbackExc bad.cbId))
    ∧ ((update_enhanced_context s id ec now).state.incidents =
        updateRecord s.incidents id
          (fun x => { x with enhanced_context := some ec, updated_at := now,
                             status := "context_enriched" })
     ∧ (update_enhanced_context s id ec now).result =
        Except.error (StoreErr.callbackExc bad.cbId))
    ∧ ((update_diagnostic_report s id dr now).state.incidents =
        updateRecord s.incidents id
          (fun x => { x with diagnostic_report := some dr, updated_at := now,
                             status := "completed",
                             root_cause := some dr.root_cause,
                             confidence_score := some dr.confidence_score })
     ∧ (update_diagnostic_report s id dr now).result =
        Except.error (StoreErr.callbackExc bad.cbId)) := by
  refine ⟨⟨?_, ?_, ?_⟩, ⟨?_, ?_⟩, ⟨?_, ?_⟩, ⟨?_, ?_⟩⟩ <;>
    simp [update_status, update_primary_context, update_enhanced_context,
          update_diagnostic_report,
          updateIncident_some_throw hfind hsubs hpre hbad]

/-- Witness for the amended C4 at the concrete store `storeB` (callback
0 raises, callback 1 is registered after it). -/
theorem mutation_survives_callback_throw_witness :
    (update_status storeB "i1" "failed" 9).state.incidents =
        updateRecord storeB.incidents "i1"
          (fun x => { x with status := "failed", updated_at := 9 })
    ∧ (update_status storeB "i1" "failed" 9).invoked = [0]
    ∧ (update_status storeB "i1" "failed" 9).result =
        Except.error (StoreErr.callbackExc 0) :=
  (mutation_survives_callback_throw storeB "i1" recA [] [⟨1, false⟩] ⟨0, true⟩
    "failed" pcA ecA drA 9 rfl rfl (by intro c hc; cases hc) rfl).1

/-- C5 counterexample: the store does not enforce set-at-most-once — a
second `update_primary_context` call on the same incident replaces the
previously set non-null stage output with a different value. -/
theorem stage_output_overwrite_counterexample :
    pcA ≠ pcB
    ∧ get_incident
        (update_primary_context
          (update_primary_context storeA "i1" pcA 1).state "i1" pcB 2).state
        "i1" =
      some ⟨"i1", alertA, some pcB, none, none, 0, 2, "context_collected"⟩ := by
  constructor
  · intro h
    have h2 := congrArg PrimaryContextPackage.preliminary_analysis h
    simp [pcA, pcB] at h2
  · rfl

/-- C9: `subscribe` performs no existence check and never fails — for
every store and every id (including ids with no incident in the store)
it registers the callback unconditionally, appending it to that id's
callback list, leaving the incident table and every other id's
callbacks unchanged. -/
theorem subscribe_contract (s : StoreState) (id : String) (cb : Callback) :
    (subscribe s id cb).incidents = s.incidents
    ∧ subsFor (subscribe s id cb).subscribers id = subsFor s.subscribers id ++ [cb]
    ∧ ∀ k, k ≠ id → subsFor (subscribe s id cb).subscribers k = subsFor s.subscribers k :=
  ⟨rfl, subsFor_subscribeList_self s.subscribers id cb,
   fun k hk => subsFor_subscribeList_ne s.subscribers id k cb hk⟩

/-- Witness for C9: subscribing to the id `ghost`, for which no incident
exists in the empty store, succeeds and registers the callback. -/
theorem subscribe_contract_witness :
    (subscribe ⟨[], []⟩ "ghost" ⟨7, false⟩).incidents = ([] : List IncidentRecord)
    ∧ subsFor (subscribe ⟨[], []⟩ "ghost" ⟨7, false⟩).subscribers "ghost" =
        subsFor ([] : List (String × List Callback)) "ghost" ++ [⟨7, false⟩]
    ∧ subsFor (subscribe ⟨[], []⟩ "ghost" ⟨7, false⟩).subscribers "other" =
        subsFor ([] : List (String × List Callback)) "other" :=
  ⟨(subscribe_contract ⟨[], []⟩ "ghost" ⟨7, false⟩).1,
   (subscribe_contract ⟨[], []⟩ "ghost" ⟨7, false⟩).2.1,
   (subscribe_contract ⟨[], []⟩ "ghost" ⟨7, false⟩).2.2 "other" (by decide)⟩

/-- C8: the notification send operations never raise into their caller
(each is a total function of the notifier state and the transport
outcome, the embedding of the `try/except Exception` wrapper): each
returns `true` exactly when notifications are enabled and the transport
delivery succeeded, and `false` when notifications are disabled or the
transport failed for any reason. -/
theorem notifier_send_boolean_contract (n : TelegramNotifier)
    (transport : Transport) (incident_id : String) (alert : AlertInput)
    (dr : IncidentDiagnosticReport) (error msg : String) (d : Nat) :
    (send_message n transport msg = true ↔
       n.enabled = true ∧ transport = Transport.success)
    ∧ (send_incident_start n transport incident_id alert = true ↔
       n.enabled = true ∧ transport = Transport.success)
    ∧ (send_incident_complete n transport incident_id alert dr d = true ↔
       n.enabled = true ∧ transport = Transport.success)
    ∧ (send_incident_error n transport incident_id alert error d = true ↔
       n.enabled = true ∧ transport = Transport.success) := by
  refine ⟨?_, ?_, ?_, ?_⟩ <;>
    (cases transport <;>
      simp [send_message, send_incident_start, send_incident_complete,
            send_incident_error])

/-! ## Helper lemmas for the pipeline -/

theorem findIncident_update_some {l : List IncidentRecord} {id : String}
    {f : IncidentRecord → IncidentRecord} {r : IncidentRecord}
    (hf : ∀ x, (f x).incident_id = x.incident_id)
    (h : findIncident l id = some r) :
    findIncident (updateRecord l id f) id = some (f r) := by
  rw [findIncident_updateRecord hf, h]
  rfl

theorem update_status_ok {s : StoreState} {id : String} {r : IncidentRecord}
    (hfind : findIncident s.incidents id = some r)
    (hnone : ∀ c ∈ subsFor s.subscribers id, c.throws = false)
    (st : String) (now : Nat) :
    update_status s id st now =
      ⟨⟨updateRecord s.incidents id
          (fun x => { x with status := st, updated_at := now }),
        s.subscribers⟩,
       (subsFor s.subscribers id).map Callback.cbId,
       some (_model_to_context
         { r with status := st, updated_at := now }), Except.ok ()⟩ := by
  simpa [update_status] using updateIncident_some_ok hfind hnone

theorem update_primary_ok {s : StoreState} {id : String} {r : IncidentRecord}
    (hfind : findIncident s.incidents id = some r)
    (hnone : ∀ c ∈ subsFor s.subscribers id, c.throws = false)
    (pc : PrimaryContextPackage) (now : Nat) :
    update_primary_context s id pc now =
      ⟨⟨updateRecord s.incidents id
          (fun x => { x with primary_context := some pc, updated_at := now,
                             status := "context_collected" }),
        s.subscribers⟩,
       (subsFor s.subscribers id).map Callback.cbId,
       some (_model_to_context
         { r with primary_context := some pc, updated_at := now,
                  status := "context_collected" }), Except.ok ()⟩ := by
  simpa [update_primary_context] using updateIncident_some_ok hfind hnone

theorem update_enhanced_ok {s : StoreState} {id : String} {r : IncidentRecord}
    (hfind : findIncident s.incidents id = some r)
    (hnone : ∀ c ∈ subsFor s.subscribers id, c.throws = false)
    (ec : EnhancedContextPackage) (now : Nat) :
    update_enhanced_context s id ec now =
      ⟨⟨updateRecord s.incidents id
          (fun x => { x with enhanced_context := some ec, updated_at := now,
                             status := "context_enriched" }),
        s.subscribers⟩,
       (subsFor s.subscribers id).map Callback.cbId,
       some (_model_to_context
         { r with enhanced_context := some ec, updated_at := now,
                  status := "context_enriched" }), Except.ok ()⟩ := by
  simpa [update_enhanced_context] using updateIncident_some_ok hfind hnone

/-- C1: starting from any store in which the fresh incident id does not
yet exist (and has no subscribers), if any of the three stage steps of
`analyze_incident` raises, the orchestrator sets the incident's status
to `failed`, sends the failure notification with the stringified error,
and re-raises the original exception unchanged; the incident record is
still retrievable with status `failed`, and exactly the stage-output
fields of the stages that completed before the failure are non-null. -/
theorem analyze_incident_failure_contract
    (s : StoreState) (alert : AlertInput) (newId : String)
    (stages : StageResults) (t : Nat)
    (hfresh : findIncident s.incidents newId = none)
    (hsubs : subsFor s.subscribers newId = []) :
    (∀ m, stages.aica = Except.error m →
       (analyze_incident s alert newId stages t).result =
         Except.error (PyErr.stageExc m)
       ∧ get_incident (analyze_incident s alert newId stages t).store newId =
           some ⟨newId, alert, none, none, none, t, t + 7, "failed"⟩
       ∧ (analyze_incident s alert newId stages t).notes =
           [PipeNote.started newId, PipeNote.failed newId m 7])
    ∧ (∀ pc m, stages.aica = Except.ok pc → stages.krea = Except.error m →
       (analyze_incident s alert newId stages t).result =
         Except.error (PyErr.stageExc m)
       ∧ get_incident (analyze_incident s alert newId stages t).store newId =
           some ⟨newId, alert, some pc, none, none, t, t + 7, "failed"⟩
       ∧ (analyze_incident s alert newId stages t).notes =
           [PipeNote.started newId, PipeNote.failed newId m 7])
    ∧ (∀ pc ec m, stages.aica = Except.ok pc → stages.krea = Except.ok ec →
       stages.rcara = Except.error m →
       (analyze_incident s alert newId stages t).result =
         Except.error (PyErr.stageExc m)
       ∧ get_incident (analyze_incident s alert newId stages t).store newId =
           some ⟨newId, alert, some pc, some ec, none, t, t + 7, "failed"⟩
       ∧ (analyze_incident s alert newId stages t).notes =
           [PipeNote.started newId, PipeNote.failed newId m 7]) := by
  have hnone : ∀ c ∈ subsFor s.subscribers newId, c.throws = false := by
    rw [hsubs]
    intro c hc2
    exact absurd hc2 (List.not_mem_nil c)
  have hc : create_incident s alert newId t =
      ⟨⟨s.incidents ++ [newIncidentRecord alert newId t], s.subscribers⟩, [],
       some (_model_to_context (newIncidentRecord alert newId t)),
       Except.ok ()⟩ := by
    simp [create_incident, hsubs, _notify_subscribers]
  have hfind1 : findIncident
      (s.incidents ++ [newIncidentRecord alert newId t]) newId =
      some (newIncidentRecord alert newId t) :=
    findIncident_append_of_none hfresh rfl
  have ho1 := update_status_ok
    (s := ⟨s.incidents ++ [newIncidentRecord alert newId t], s.subscribers⟩)
    hfind1 hnone "running_aica" (t + 1)
  have hfind2 : findIncident
      (updateRecord (s.incidents ++ [newIncidentRecord alert newId t]) newId
        (fun x => { x with status := "running_aica", updated_at := t + 1 }))
      newId =
      some { newIncidentRecord alert newId t with
             status := "running_aica", updated_at := t + 1 } :=
    findIncident_update_some (fun x => rfl) hfind1
  refine ⟨?_, ?_, ?_⟩
  · -- Stage 1 (AICA) fails
    intro m hm
    have hrun : runTry
        ⟨s.incidents ++ [newIncidentRecord alert newId t], s.subscribers⟩
        newId stages (t + 1) =
        Except.error
          (⟨updateRecord (s.incidents ++ [newIncidentRecord alert newId t])
              newId
              (fun x => { x with status := "running_aica", updated_at := t + 1 }),
            s.subscribers⟩,
           [OpTag.statusOp "running_aica"], PyErr.stageExc m) := by
      simp [runTry, ho1, hm]
    have hfail := update_status_ok
      (s := ⟨updateRecord (s.incidents ++ [newIncidentRecord alert newId t])
               newId
               (fun x => { x with status := "running_aica", updated_at := t + 1 }),
             s.subscribers⟩)
      hfind2 hnone "failed" (t + 7)
    refine ⟨?_, ?_, ?_⟩
    · simp [analyze_incident, hc, hrun, hfail]
    · simp only [analyze_incident, hc, hrun, hfail]
      have hfi := findIncident_update_some
        (f := fun x => { x with status := "failed", updated_at := t + 7 })
        (fun x => rfl) hfind2
      simp only [get_incident, hfi]
      simp [_model_to_context, newIncidentRecord]
    · simp [analyze_incident, hc, hrun, hfail, pyErrStr]
  · -- Stage 2 (KREA) fails
    intro pc m ha hm
    have ho2 := update_primary_ok
      (s := ⟨updateRecord (s.incidents ++ [newIncidentRecord alert newId t])
               newId
               (fun x => { x with status := "running_aica", updated_at := t + 1 }),
             s.subscribers⟩)
      hfind2 hnone pc (t + 2)
    have hfind3 := findIncident_update_some
      (f := fun x => { x with primary_context := some pc, updated_at := t + 2,
                              status := "context_collected" })
      (fun x => rfl) hfind2
    have ho3 := update_status_ok
      (s := ⟨updateRecord
               (updateRecord (s.incidents ++ [newIncidentRecord alert newId t])
                 newId
                 (fun x => { x with status := "running_aica", updated_at := t + 1 }))
               newId
               (fun x => { x with primary_context := some pc, updated_at := t + 2,
                                  status := "context_collected" }),
             s.subscribers⟩)
      hfind3 hnone "running_krea" (t + 3)
    have hfind4 := findIncident_update_some
      (f := fun x => { x with status := "running_krea", updated_at := t + 3 })
      (fun x => rfl) hfind3
    have hrun : runTry
        ⟨s.incidents ++ [newIncidentRecord alert newId t], s.subscribers⟩
        newId stages (t + 1) =
        Except.error
          (⟨updateRecord
              (updateRecord
                (updateRecord (s.incidents ++ [newIncidentRecord alert newId t])
                  newId
                  (fun x => { x with status := "running_aica", updated_at := t + 1 }))
                newId
                (fun x => { x with primary_context := some pc, updated_at := t + 2,
                                   status := "context_collected" }))
              newId
              (fun x => { x with status := "running_krea", updated_at := t + 3 }),
            s.subscribers⟩,
           [OpTag.statusOp "running_aica", OpTag.primaryOp,
            OpTag.statusOp "running_krea"], PyErr.stageExc m) := by
      simp [runTry, ho1, ho2, ho3, ha, hm]
    have hfail := update_status_ok
      (s := ⟨updateRecord
               (updateRecord
                 (updateRecord (s.incidents ++ [newIncidentRecord alert newId t])
                   newId
                   (fun x => { x with status := "running_aica", updated_at := t + 1 }))
                 newId
                 (fun x => { x with primary_context := some pc, updated_at := t + 2,
                                    status := "context_collected" }))
               newId
               (fun x => { x with status := "running_krea", updated_at := t + 3 }),
             s.subscribers⟩)
      hfind4 hnone "failed" (t + 7)
    refine ⟨?_, ?_, ?_⟩
    · simp [analyze_incident, hc, hrun, hfail]
    · simp only [analyze_incident, hc, hrun, hfail]
      have hfi := findIncident_update_some
        (f := fun x => { x with status := "failed", updated_at := t + 7 })
        (fun x => rfl) hfind4
      simp only [get_incident, hfi]
      simp [_model_to_context, newIncidentRecord]
    · simp [analyze_incident, hc, hrun, hfail, pyErrStr]
  · -- Stage 3 (RCARA) fails
    intro pc ec m ha hk hm
    have ho2 := update_primary_ok
      (s := ⟨updateRecord (s.incidents ++ [newIncidentRecord alert newId t])
               newId
               (fun x => { x with status := "running_aica", updated_at := t + 1 }),
             s.subscribers⟩)
      hfind2 hnone pc (t + 2)
    have hfind3 := findIncident_update_some
      (f := fun x => { x with primary_context := some pc, updated_at := t + 2,
                              status := "context_collected" })
      (fun x => rfl) hfind2
    have ho3 := update_status_ok
      (s := ⟨updateRecord
               (updateRecord (s.incidents ++ [newIncidentRecord alert newId t])
                 newId
                 (fun x => { x with status := "running_aica", updated_at := t + 1 }))
               newId
               (fun x => { x with primary_context := some pc, updated_at := t + 2,
                                  status := "context_collected" }),
             s.subscribers⟩)
      hfind3 hnone "running_krea" (t + 3)
    have hfind4 := findIncident_update_some
      (f := fun x => { x with status := "running_krea", updated_at := t + 3 })
      (fun x => rfl) hfind3
    have ho4 := update_enhanced_ok
      (s := ⟨updateRecord
               (updateRecord
                 (updateRecord (s.incidents ++ [newIncidentRecord alert newId t])
                   newId
                   (fun x => { x with status := "running_aica", updated_at := t + 1 }))
                 newId
                 (fun x => { x with primary_context := some pc, updated_at := t + 2,
                                    status := "context_collected" }))
               newId
               (fun x => { x with status := "running_krea", updated_at := t + 3 }),
             s.subscribers⟩)
      hfind4 hnone ec (t + 4)
    have hfind5 := findIncident_update_some
      (f := fun x => { x with enhanced_context := some ec, updated_at := t + 4,
                              status := "context_enriched" })
      (fun x => rfl) hfind4
    have ho5 := update_status_ok
      (s := ⟨updateRecord
               (updateRecord
                 (updateRecord
                   (updateRecord (s.incidents ++ [newIncidentRecord alert newId t])
                     newId
                     (fun x => { x with status := "running_aica", updated_at := t + 1 }))
                   newId
                   (fun x => { x with primary_context := some pc, updated_at := t + 2,
                                      status := "context_collected" }))
                 newId
                 (fun x => { x with status := "running_krea", updated_at := t + 3 }))
               newId
               (fun x => { x with enhanced_context := some ec, updated_at := t + 4,
                                  status := "context_enriched" }),
             s.subscribers⟩)
      hfind5 hnone "running_rcara" (t + 5)
    have hfind6 := findIncident_update_some
      (f := fun x => { x with status := "running_rcara", updated_at := t + 5 })
      (fun x => rfl) hfind5
    have hrun : runTry
        ⟨s.incidents ++ [newIncidentRecord alert newId t], s.subscribers⟩
        newId stages (t + 1) =
        Except.error
          (⟨updateRecord
              (updateRecord
                (updateRecord
                  (updateRecord
                    (updateRecord (s.incidents ++ [newIncidentRecord alert newId t])
                      newId
                      (fun x => { x with status := "running_aica", updated_at := t + 1 }))
                    newId
                    (fun x => { x with primary_context := some pc, updated_at := t + 2,
                                       status := "context_collected" }))
                  newId
                  (fun x => { x with status := "running_krea", updated_at := t + 3 }))
                newId
                (fun x => { x with enhanced_context := some ec, updated_at := t + 4,
                                   status := "context_enriched" }))
              newId
              (fun x => { x with status := "running_rcara", updated_at := t + 5 }),
            s.subscribers⟩,
           [OpTag.statusOp "running_aica", OpTag.primaryOp,
            OpTag.statusOp "running_krea", OpTag.enhancedOp,
            OpTag.statusOp "running_rcara"], PyErr.stageExc m) := by
      simp [runTry, ho1, ho2, ho3, ho4, ho5, ha, hk, hm]
    have hfail := update_status_ok
      (s := ⟨updateRecord
               (updateRecord
                 (updateRecord
                   (updateRecord
                     (updateRecord (s.incidents ++ [newIncidentRecord alert newId t])
                       newId
                       (fun x => { x with status := "running_aica", updated_at := t + 1 }))
                     newId
                     (fun x => { x with primary_context := some pc, updated_at := t + 2,
                                        status := "context_collected" }))
                   newId
                   (fun x => { x with status := "running_krea", updated_at := t + 3 }))
                 newId
                 (fun x => { x with enhanced_context := some ec, updated_at := t + 4,
                                    status := "context_enriched" }))
               newId
               (fun x => { x with status := "running_rcara", updated_at := t + 5 }),
             s.subscribers⟩)
      hfind6 hnone "failed" (t + 7)
    refine ⟨?_, ?_, ?_⟩
    · simp [analyze_incident, hc, hrun, hfail]
    · simp only [analyze_incident, hc, hrun, hfail]
      have hfi := findIncident_update_some
        (f := fun x => { x with status := "failed", updated_at := t + 7 })
        (fun x => rfl) hfind6
      simp only [get_incident, hfi]
      simp [_model_to_context, newIncidentRecord]
    · simp [analyze_incident, hc, hrun, hfail, pyErrStr]

/-- Witness for C1: on the empty store, with Stage A raising `boom`,
the pipeline re-raises `boom`, the record is retrievable with status
`failed` and all three stage outputs null, and the failure notification
was sent. -/
theorem analyze_incident_failure_contract_witness :
    (analyze_incident ⟨[], []⟩ alertA "inc-1"
       ⟨Except.error "boom", Except.error "x", Except.error "y"⟩ 0).result =
      Except.error (PyErr.stageExc "boom")
    ∧ get_incident
        (analyze_incident ⟨[], []⟩ alertA "inc-1"
          ⟨Except.error "boom", Except.error "x", Except.error "y"⟩ 0).store
        "inc-1" =
      some ⟨"inc-1", alertA, none, none, none, 0, 0 + 7, "failed"⟩
    ∧ (analyze_incident ⟨[], []⟩ alertA "inc-1"
        ⟨Except.error "boom", Except.error "x", Except.error "y"⟩ 0).notes =
      [PipeNote.started "inc-1", PipeNote.failed "inc-1" "boom" 7] :=
  (analyze_incident_failure_contract ⟨[], []⟩ alertA "inc-1"
    ⟨Except.error "boom", Except.error "x", Except.error "y"⟩ 0 rfl rfl).1
    "boom" rfl

theorem runTry_ok_trace {s : StoreState} {id : String} {stages : StageResults}
    {t : Nat} {s2 : StoreState} {tr : List OpTag}
    {dr : IncidentDiagnosticReport}
    (h : runTry s id stages t = Except.ok (s2, tr, dr)) :
    tr.count OpTag.primaryOp ≤ 1 ∧ tr.count OpTag.enhancedOp ≤ 1
    ∧ tr.count OpTag.diagOp ≤ 1 := by
  simp only [runTry] at h
  repeat' split at h
  all_goals first
  | (injection h with h1; injection h1 with h2 h3; injection h3 with h4 h5;
     subst h4; decide)
  | injection h

theorem runTry_error_trace {s : StoreState} {id : String}
    {stages : StageResults} {t : Nat} {s2 : StoreState} {tr : List OpTag}
    {e : PyErr} (h : runTry s id stages t = Except.error (s2, tr, e)) :
    tr.count OpTag.primaryOp ≤ 1 ∧ tr.count OpTag.enhancedOp ≤ 1
    ∧ tr.count OpTag.diagOp ≤ 1 := by
  simp only [runTry] at h
  repeat' split at h
  all_goals first
  | (injection h with h1; injection h1 with h2 h3; injection h3 with h4 h5;
     subst h4; decide)
  | injection h

/-- C5 (amended): the store itself does not enforce set-at-most-once —
a repeated update replaces the previous value (see the counterexample) —
but within a single `analyze_incident` run each stage-output update
operation is performed at most once per incident, so the at-most-once
property holds of every pipeline execution. -/
theorem pipeline_stage_outputs_at_most_once (s : StoreState)
    (alert : AlertInput) (newId : String) (stages : StageResults) (t : Nat) :
    (analyze_incident s alert newId stages t).ops.count OpTag.primaryOp ≤ 1
    ∧ (analyze_incident s alert newId stages t).ops.count OpTag.enhancedOp ≤ 1
    ∧ (analyze_incident s alert newId stages t).ops.count OpTag.diagOp ≤ 1 := by
  simp only [analyze_incident]
  split
  · simp
  · split
    · rename_i s2 tr dr heq
      obtain ⟨h1, h2, h3⟩ := runTry_ok_trace heq
      refine ⟨?_, ?_, ?_⟩ <;> simp [List.count_cons] <;> omega
    · rename_i s2 tr e heq
      obtain ⟨h1, h2, h3⟩ := runTry_error_trace heq
      split <;>
        (refine ⟨?_, ?_, ?_⟩ <;>
          simp [List.count_cons, List.count_append] <;> omega)

/-! ## Helper lemmas about the extractor -/

theorem ofNat_ne_neg_one (k : Nat) : ((k : Int) = -1) ↔ False := by
  simp only [iff_false]
  omega

theorem neg_one_ne_ofNat (k : Nat) : ((-1 : Int) = (k : Int)) ↔ False := by
  simp only [iff_false]
  omega

theorem findSub_of_isPrefixOf {l pat : List Char}
    (h : pat.isPrefixOf l = true) : findSub l pat = some 0 := by
  unfold findSub
  simp [h]

theorem pyFind_zero_of_startsWith {c pat : String}
    (h : pyStartsWith c pat = true) : pyFind c pat 0 = 0 := by
  unfold pyFind
  rw [List.drop_zero, findSub_of_isPrefixOf (by simpa [pyStartsWith] using h)]
  rfl

theorem pySlice_zero_full (c : String) :
    pySlice c 0 ((c.data.length : Nat) : Int) = c := by
  unfold pySlice pyIdx
  have h1 : ¬ (((c.data.length : Nat) : Int) < 0) := by omega
  have h2 : ¬ ((0 : Int) < 0) := by omega
  rw [if_neg h1, if_neg h2]
  simp
  rw [show String.length c = c.data.length from rfl, List.take_length]

theorem pyFind_cases (s pat : String) (st : Nat) :
    pyFind s pat st = -1 ∨ ∃ k : Nat, pyFind s pat st = (k : Int) := by
  rcases h : findSub (s.data.drop st) pat.data with _ | k
  · left
    simp [pyFind, h]
  · right
    exact ⟨st + k, by simp [pyFind, h]⟩

theorem pyRfind_cases (s pat : String) :
    pyRfind s pat = -1 ∨ ∃ k : Nat, pyRfind s pat = (k : Int) := by
  rcases h : rfindSub s.data pat.data with _ | k
  · left
    simp [pyRfind, h]
  · right
    exact ⟨k, by simp [pyRfind, h]⟩

theorem dropToFirstBrace_err {c : String} (h : pyFind c "\x7b" 0 = -1) :
    dropToFirstBrace c = Except.error ExtractErr.noJsonObject := by
  cases hs : pyStartsWith c "\x7b" with
  | false => simp [dropToFirstBrace, hs, h]
  | true =>
    rw [pyFind_zero_of_startsWith hs] at h
    exact absurd h (by decide)

theorem dropToFirstBrace_ok {c : String} {k : Nat}
    (h : pyFind c "\x7b" 0 = (k : Int)) :
    dropToFirstBrace c = Except.ok (pySliceFrom c (k : Int)) := by
  cases hs : pyStartsWith c "\x7b" with
  | false =>
    have hne : (((k : Int)) == -1) = false := by
      simp only [beq_eq_false_iff_ne, ne_eq, ofNat_ne_neg_one]
      exact not_false
    simp [dropToFirstBrace, hs, h, hne]
  | true =>
    have h0 := pyFind_zero_of_startsWith hs
    rw [h0] at h
    have hk : k = 0 := by omega
    subst hk
    simp [dropToFirstBrace, hs, pySliceFrom]
    exact (pySlice_zero_full c).symm

theorem suffix_singleton_getLast {l : List Char} {ch : Char}
    (h : [ch] <:+ l) : l.getLast? = some ch := by
  obtain ⟨pre, rfl⟩ := h
  simp

theorem rfindSub_last {l : List Char} {ch : Char}
    (h : l.getLast? = some ch) : rfindSub l [ch] = some (l.length - 1) := by
  induction l with
  | nil => simp at h
  | cons c rest ih =>
    cases rest with
    | nil =>
      simp at h
      subst h
      simp [rfindSub, List.isPrefixOf]
    | cons d rest2 =>
      have h2 : (d :: rest2).getLast? = some ch := by simpa using h
      have ihh := ih h2
      conv_lhs => rw [rfindSub.eq_def]
      simp [ihh]

theorem getLast_ne_nil {l : List Char} {ch : Char}
    (h : l.getLast? = some ch) : l.length ≠ 0 := by
  cases l with
  | nil => simp at h
  | cons c rest => simp

theorem pyRfind_rbrace_of_endswith {c : String}
    (h : pyEndsWith c "\x7d" = true) :
    pyRfind c "\x7d" = ((c.data.length - 1 : Nat) : Int) := by
  have hlast : c.data.getLast? = some '\x7d' :=
    suffix_singleton_getLast
      (by simpa using List.isSuffixOf_iff_suffix.mp (by simpa [pyEndsWith] using h))
  unfold pyRfind
  rw [show ("\x7d".data) = ['\x7d'] from rfl, rfindSub_last hlast]
  simp

theorem clampToLastBrace_err {c : String} (h : pyRfind c "\x7d" = -1) :
    clampToLastBrace c = Except.error ExtractErr.noCompleteJson := by
  cases hs : pyEndsWith c "\x7d" with
  | false => simp [clampToLastBrace, hs, h]
  | true =>
    rw [pyRfind_rbrace_of_endswith hs] at h
    exact absurd h (by simp [ofNat_ne_neg_one])

theorem clampToLastBrace_ok {c : String} {e : Nat}
    (h : pyRfind c "\x7d" = (e : Int)) :
    clampToLastBrace c = Except.ok (pySlice c 0 ((e : Int) + 1)) := by
  cases hs : pyEndsWith c "\x7d" with
  | false =>
    have hne : (((e : Int)) == -1) = false := by
      simp only [beq_eq_false_iff_ne, ne_eq, ofNat_ne_neg_one]
      exact not_false
    simp [clampToLastBrace, hs, h, hne]
  | true =>
    have hlast : c.data.getLast? = some '\x7d' :=
      suffix_singleton_getLast
        (by simpa using List.isSuffixOf_iff_suffix.mp (by simpa [pyEndsWith] using hs))
    rw [pyRfind_rbrace_of_endswith hs] at h
    have hlen := getLast_ne_nil hlast
    have he : e = c.data.length - 1 := by omega
    subst he
    have harith : ((c.data.length - 1 : Nat) : Int) + 1 = ((c.data.length : Nat) : Int) := by
      omega
    have hgoal : pySlice c 0 (((c.data.length - 1 : Nat) : Int) + 1) = c := by
      rw [harith, pySlice_zero_full]
    simp only [clampToLastBrace, hs, if_true]
    rw [hgoal]

/-- C3: the response extractor strips whitespace, takes the interior of
a json-tagged fence if one exists (else of any fence), discards text
before the first opening brace and after the last closing brace, then
strict-parses; it fails exactly when no opening brace is found, when no
closing brace is found after it, or when the parse fails — each failure
a distinct error.  The four concrete behaviors from the spec evaluate
accordingly. -/
theorem extract_json_error_cases :
    (∀ s : String,
      (_extract_json_from_response s = Except.error ExtractErr.noJsonObject ↔
         pyFind (stripFences (pyStrip s)) "\x7b" 0 = -1)
      ∧ (_extract_json_from_response s = Except.error ExtractErr.noCompleteJson ↔
         (∃ k : Nat, pyFind (stripFences (pyStrip s)) "\x7b" 0 = (k : Int)
           ∧ pyRfind (pySliceFrom (stripFences (pyStrip s)) (k : Int)) "\x7d" = -1))
      ∧ (_extract_json_from_response s = Except.error ExtractErr.invalidJson ↔
         (∃ k e : Nat, pyFind (stripFences (pyStrip s)) "\x7b" 0 = (k : Int)
           ∧ pyRfind (pySliceFrom (stripFences (pyStrip s)) (k : Int)) "\x7d" = (e : Int)
           ∧ exceptIsOk (json_loads
               (pySlice (pySliceFrom (stripFences (pyStrip s)) (k : Int)) 0
                 ((e : Int) + 1))) = false)))
    ∧ _extract_json_from_response "prose ```json\n\x7b\"a\":1\x7d\n``` trailing" =
        Except.ok (JsonVal.obj [("a", JsonVal.num 1)])
    ∧ _extract_json_from_response "\x7b\"a\":1\x7d" =
        Except.ok (JsonVal.obj [("a", JsonVal.num 1)])
    ∧ _extract_json_from_response "no braces here" =
        Except.error ExtractErr.noJsonObject
    ∧ _extract_json_from_response "\x7b\"a\":1" =
        Except.error ExtractErr.noCompleteJson := by
  refine ⟨?_, rfl, rfl, rfl, rfl⟩
  intro s
  rcases pyFind_cases (stripFences (pyStrip s)) "\x7b" 0 with h1 | ⟨k, h1⟩
  · have hE : _extract_json_from_response s = Except.error ExtractErr.noJsonObject := by
      simp [_extract_json_from_response, dropToFirstBrace_err h1]
    refine ⟨?_, ?_, ?_⟩ <;>
      simp [hE, h1, neg_one_ne_ofNat]
  · have hd := dropToFirstBrace_ok h1
    rcases pyRfind_cases (pySliceFrom (stripFences (pyStrip s)) (k : Int)) "\x7d" with
      h2 | ⟨e, h2⟩
    · have hE : _extract_json_from_response s = Except.error ExtractErr.noCompleteJson := by
        simp [_extract_json_from_response, hd, clampToLastBrace_err h2]
      refine ⟨?_, ?_, ?_⟩ <;>
        simp [hE, h1, h2, ofNat_ne_neg_one, Nat.cast_inj, neg_one_ne_ofNat]
    · have hcl := clampToLastBrace_ok h2
      cases hj : json_loads
          (pySlice (pySliceFrom (stripFences (pyStrip s)) (k : Int)) 0
            ((e : Int) + 1)) with
      | ok v =>
        have hE : _extract_json_from_response s = Except.ok v := by
          simp [_extract_json_from_response, hd, hcl, hj]
        refine ⟨?_, ?_, ?_⟩ <;>
          simp [hE, h1, h2, hj, exceptIsOk, ofNat_ne_neg_one, Nat.cast_inj]
      | error msg =>
        have hE : _extract_json_from_response s = Except.error ExtractErr.invalidJson := by
          simp [_extract_json_from_response, hd, hcl, hj]
        refine ⟨?_, ?_, ?_⟩ <;>
          simp [hE, h1, h2, hj, exceptIsOk, ofNat_ne_neg_one, Nat.cast_inj]

/-- C10: when the content contains the json fence tag but no closing
fence after it, the failed fence lookup returns `-1` and is used as the
slice end unchanged, so the extractor takes the substring from just
after the tag up to but excluding the final character (second conjunct
gives the meaning of an end index of `-1`); consequently an input that
is exactly the json fence tag followed by a complete JSON object raises
an extraction error even though the text contains a complete object. -/
theorem fence_unterminated_slice (s : String) :
    (pyContains (pyStrip s) "```json" = true →
     pyFind (pyStrip s) "```" (pyFind (pyStrip s) "```json" 0 + 7).toNat = -1 →
     stripFences (pyStrip s) =
       pyStrip (pySlice (pyStrip s) (pyFind (pyStrip s) "```json" 0 + 7) (-1)))
    ∧ (∀ (t : String) (a : Nat),
        pySlice t (a : Int) (-1) =
          String.mk ((t.data.take (t.data.length - 1)).drop a))
    ∧ _extract_json_from_response "```json\x7b\"a\":1\x7d" =
        Except.error ExtractErr.noCompleteJson
    ∧ json_loads "\x7b\"a\":1\x7d" =
        Except.ok (JsonVal.obj [("a", JsonVal.num 1)]) := by
  refine ⟨?_, ?_, rfl, rfl⟩
  · intro h1 h2
    simp [stripFences, h1, h2]
  · intro t a
    unfold pySlice pyIdx
    have hb : ((-1 : Int) < 0) := by omega
    have ha : ¬ ((a : Int) < 0) := by omega
    rw [if_pos hb, if_neg ha]
    have h3 : (max (Int.ofNat t.data.length + (-1 : Int)) 0).toNat =
        t.data.length - 1 := by
      simp only [Int.ofNat_eq_natCast]
      omega
    have h4 : ((a : Int)).toNat = a := by omega
    rw [h3, h4]
    rcases le_or_lt a t.data.length with hle | hlt
    · rw [min_eq_left hle]
    · rw [min_eq_right hlt.le]
      have hlen1 : (List.take (t.data.length - 1) t.data).length ≤ t.data.length := by
        rw [List.length_take]
        omega
      have hlen2 : (List.take (t.data.length - 1) t.data).length ≤ a := by
        rw [List.length_take]
        omega
      rw [List.drop_eq_nil_of_le hlen1, List.drop_eq_nil_of_le hlen2]

/-- Witness for C10 at the concrete input consisting of the json fence
tag immediately followed by a complete JSON object. -/
theorem fence_unterminated_slice_witness :
    stripFences (pyStrip "```json\x7b\"a\":1\x7d") =
      pyStrip (pySlice (pyStrip "```json\x7b\"a\":1\x7d")
        (pyFind (pyStrip "```json\x7b\"a\":1\x7d") "```json" 0 + 7) (-1))
    ∧ _extract_json_from_response "```json\x7b\"a\":1\x7d" =
        Except.error ExtractErr.noCompleteJson :=
  ⟨(fence_unterminated_slice "```json\x7b\"a\":1\x7d").1 rfl rfl,
   (fence_unterminated_slice "```json\x7b\"a\":1\x7d").2.2.1⟩

/-- C7: the declared bounds on `RetrievedKnowledge.relevance` and
`IncidentDiagnosticReport.confidence_score` (`ge=0.0, le=1.0`) accept
exactly the values in `[0, 1]`: validation succeeds iff the score is in
range, both endpoints validate, and -0.0001 and 1.0001 both fail with
an out-of-range ValidationError before any object is produced. -/
theorem score_bounds_validation :
    (∀ (sid ex : String) (q : Rat),
       exceptIsOk (validateKnowledge ⟨some sid, some ex, some q⟩) = true ↔
         0 ≤ q ∧ q ≤ 1)
    ∧ (∀ (rc : String) (rs se : List String) (q : Rat)
         (rem : RecommendedRemediation),
       exceptIsOk (validateReport ⟨some rc, some rs, some se, some q, some rem⟩) = true ↔
         0 ≤ q ∧ q ≤ 1)
    ∧ validateKnowledge ⟨some "kb", some "x", some 0⟩ = Except.ok ⟨"kb", "x", 0⟩
    ∧ validateKnowledge ⟨some "kb", some "x", some 1⟩ = Except.ok ⟨"kb", "x", 1⟩
    ∧ validateKnowledge ⟨some "kb", some "x", some (-1 / 10000)⟩ =
        Except.error [ValidationErr.out_of_range "relevance"]
    ∧ validateKnowledge ⟨some "kb", some "x", some (10001 / 10000)⟩ =
        Except.error [ValidationErr.out_of_range "relevance"]
    ∧ validateReport ⟨some "rc", some ["s"], some [], some 0, some ⟨[], []⟩⟩ =
        Except.ok ⟨"rc", ["s"], [], 0, ⟨[], []⟩⟩
    ∧ validateReport ⟨some "rc", some ["s"], some [], some 1, some ⟨[], []⟩⟩ =
        Except.ok ⟨"rc", ["s"], [], 1, ⟨[], []⟩⟩
    ∧ validateReport ⟨some "rc", some ["s"], some [], some (-1 / 10000), some ⟨[], []⟩⟩ =
        Except.error [ValidationErr.out_of_range "confidence_score"]
    ∧ validateReport ⟨some "rc", some ["s"], some [], some (10001 / 10000), some ⟨[], []⟩⟩ =
        Except.error [ValidationErr.out_of_range "confidence_score"] := by
  refine ⟨?_, ?_, ?_, ?_, ?_, ?_, ?_, ?_, ?_, ?_⟩
  · intro sid ex q
    by_cases h : q < 0 ∨ 1 < q
    · have h2 : ¬ (0 ≤ q ∧ q ≤ 1) := by
        rcases h with h | h
        · exact fun hc => absurd hc.1 (not_le.mpr h)
        · exact fun hc => absurd hc.2 (not_le.mpr h)
      simp [validateKnowledge, h, exceptIsOk, h2]
    · push_neg at h
      simp [validateKnowledge, not_or.mpr ⟨not_lt.mpr h.1, not_lt.mpr h.2⟩,
            exceptIsOk, h.1, h.2]
  · intro rc rs se q rem
    by_cases h : q < 0 ∨ 1 < q
    · have h2 : ¬ (0 ≤ q ∧ q ≤ 1) := by
        rcases h with h | h
        · exact fun hc => absurd hc.1 (not_le.mpr h)
        · exact fun hc => absurd hc.2 (not_le.mpr h)
      simp [validateReport, h, exceptIsOk, h2]
    · push_neg at h
      simp [validateReport, not_or.mpr ⟨not_lt.mpr h.1, not_lt.mpr h.2⟩,
            exceptIsOk, h.1, h.2]
  · norm_num [validateKnowledge]
  · norm_num [validateKnowledge]
  · norm_num [validateKnowledge]
  · norm_num [validateKnowledge]
  · norm_num [validateReport]
  · norm_num [validateReport]
  · norm_num [validateReport]
  · norm_num [validateReport]

/-- C6 counterexample: a Stage-C document whose `reasoning_steps` field
is the empty list validates successfully — the schema declares no
minimum length — refuting the claim that it fails with a
ValidationError. -/
theorem empty_reasoning_steps_validates :
    validateReport ⟨some "db outage", some [], some ["ev"], some (1 / 2),
                    some ⟨["restart"], []⟩⟩ =
      Except.ok ⟨"db outage", [], ["ev"], 1 / 2, ⟨["restart"], []⟩⟩ := by
  norm_num [validateReport]

/-- C6 (amended): the Stage-C schema requires `reasoning_steps` to be
present but enforces no minimum length: any document with an empty
reasoning_steps list and otherwise valid fields validates successfully
into a report with zero reasoning steps. -/
theorem report_validation_no_min_reasoning_steps
    (rc : String) (se : List String) (cs : Rat)
    (rem : RecommendedRemediation) (h0 : 0 ≤ cs) (h1 : cs ≤ 1) :
    validateReport ⟨some rc, some [], some se, some cs, some rem⟩ =
      Except.ok ⟨rc, [], se, cs, rem⟩ := by
  have h : ¬ (cs < 0 ∨ 1 < cs) := by
    rintro (h | h) <;> linarith
  simp [validateReport, h]

/-- Witness for the amended C6 at a concrete document. -/
theorem report_validation_no_min_reasoning_steps_witness :
    validateReport ⟨some "w", some [], some [], some (1 / 2), some ⟨[], []⟩⟩ =
      Except.ok ⟨"w", [], [], 1 / 2, ⟨[], []⟩⟩ :=
  report_validation_no_min_reasoning_steps "w" [] (1 / 2) ⟨[], []⟩
    (by norm_num) (by norm_num)
